import Mathlib

/-!
Shallow embedding of `official/recommendation/keras_ncf_main.py`.

The file under analysis is a training driver: `run_ncf` downloads data (when
asked), builds a producer and a Keras model from sibling modules, compiles the
model and calls `fit`.  The sibling modules (`ncf_main.parse_flags`,
`data_preprocessing.instantiate_pipeline`, `data_pipeline.DummyConstructor`,
`neumf_model`, `distribution_utils`, …) are black boxes: they are modelled as
fields of an `Env` record, and every call the driver makes into the framework
is recorded as an `Event` in an execution trace.  Python runtime errors the
driver can raise (the two `assert` statements and the integer divisions by a
possibly-zero divisor) are modelled by an `ErrKind` field of the outcome,
with the partial trace of the events executed before the error.
-/

/-- Tensor dtypes that appear in the driver. -/
inductive DType where
  | int32
  | float32
deriving Repr, DecidableEq

/-- Command-line flags read by `run_ncf` and `main` (the `FLAGS` object). -/
structure Flags where
  download_if_missing : Bool
  use_synthetic_data : Bool
  dataset : String
  data_dir : String
  seed : Option Int
  ml_perf : Bool
  train_epochs : Nat
  epochs_between_evals : Nat
  batch_size : Nat
  output_ml_perf_compliance_logging : Bool
deriving Repr, DecidableEq

/-- The slice of the `params` dict returned by `ncf_main.parse_flags` that the
driver reads or writes: `params["batches_per_step"]`, `params["num_users"]`,
`params["num_items"]`. -/
structure Params where
  batches_per_step : Nat
  num_users : Nat
  num_items : Nat
deriving Repr, DecidableEq

/-- A data producer (either `data_pipeline.DummyConstructor()` or the producer
returned by `data_preprocessing.instantiate_pipeline`); the driver only reads
its `train_batches_per_epoch` and `eval_batches_per_epoch` attributes. -/
structure Producer where
  train_batches_per_epoch : Nat
  eval_batches_per_epoch : Nat
deriving Repr, DecidableEq

/-- The `ncf_dataset` record returned by `instantiate_pipeline`; the driver
reads `num_users` and `num_items`. -/
structure NcfDataset where
  num_users : Nat
  num_items : Nat
deriving Repr, DecidableEq

/-- A symbolic `tf.keras.layers.Input` layer, with the arguments the driver
passes: `shape`, `batch_size`, `name`, `dtype`. -/
structure InputLayer where
  shape : List Nat
  batch_size : Nat
  name : String
  dtype : DType
deriving Repr, DecidableEq

/-- Symbolic Keras model expressions built by the driver. -/
inductive ModelExpr where
  /-- The base model `neumf_model.construct_model_keras(user_input, item_input, params)`. -/
  | constructModelKeras (user_input item_input : InputLayer) (params : Params)
  /-- The model returned by the driver's `_logitfy(inputs, base_model)`. -/
  | logitfied (inputs : List InputLayer) (base : ModelExpr)
deriving Repr, DecidableEq

/-- Symbolic optimizer expressions: the driver only uses
`neumf_model.get_optimizer(params)`. -/
inductive OptExpr where
  | getOptimizer (params : Params)
deriving Repr, DecidableEq

/-- Symbolic distribution strategies: the driver only uses
`distribution_utils.get_distribution_strategy(num_gpus=1)`. -/
inductive StrategyExpr where
  | getDistributionStrategy (num_gpus : Nat)
deriving Repr, DecidableEq

/-- Symbolic tensor expressions appearing in the loss function body. -/
inductive TExpr where
  | yTrue
  | yPred
  | cast (dtype : DType) (e : TExpr)
  | reshape (shape : List Nat) (e : TExpr)
  /-- `tf.losses.sparse_softmax_cross_entropy(labels=…, logits=…)`. -/
  | sparseSoftmaxCrossEntropy (labels logits : TExpr)
deriving Repr, DecidableEq

/-- Symbolic dataset expressions: the result of applying
`data_preprocessing.make_input_fn(producer, is_training, use_tpu)` to `params`,
and `.repeat(n)` on a dataset. -/
inductive DatasetExpr where
  | inputFnApplied (producer : Producer) (is_training use_tpu : Bool) (params : Params)
  | repeated (base : DatasetExpr) (count : Nat)
deriving Repr, DecidableEq

/-- Which constructor produced the driver's `producer` variable. -/
inductive ProducerSource where
  | dummyConstructor
  | instantiatePipeline
deriving Repr, DecidableEq

/-- Observable events: each constructor records one call the driver makes into
a library, with the arguments given at the call site.  The constructors
`threadCreate`, `processCreate`, `lockCreate`, `queueCreate` and
`evaluateCall` are in the vocabulary so that their absence from every trace is
a statable property: the driver never performs them. -/
inductive Event where
  | download (dataset data_dir : String)
  | numpySeed (seed : Int)
  | parseFlagsCall
  | instantiatePipelineCall (dataset data_dir : String) (match_mlperf deterministic : Bool)
  | producerStart
  | applyClean
  | makeInputFnCall (producer : Producer) (is_training use_tpu : Bool)
  | modelSummary
  | logInfo (msg : String)
  | getDistributionStrategyCall (num_gpus : Nat)
  | compileCall (model : ModelExpr) (loss : TExpr) (optimizer : OptExpr)
      (metrics : List String) (distribute : Option StrategyExpr)
  | printLine (msg : String)
  | fitCall (model : ModelExpr) (data : DatasetExpr) (epochs steps_per_epoch : Nat)
      (callbacks : List String) (verbose : Nat)
  | evaluateCall (model : ModelExpr) (steps : Nat)
  | threadCreate
  | processCreate
  | lockCreate
  | queueCreate
  | benchmarkContextEnter
  | mlperfLoggerEnter (enabled : Bool)
  | setNcfRoot
deriving Repr, DecidableEq

/-- Python runtime errors the driver body can raise: the two divisibility
`assert` statements, and `ZeroDivisionError` from `//` or `%` with a zero
divisor. -/
inductive ErrKind where
  | trainDivisibility
  | evalDivisibility
  | zeroDivision
deriving Repr, DecidableEq

/-- The observable outcome of one invocation of the driver: the trace of
library calls, the error that interrupted it (if any), and the values of the
local variables the claims talk about (`none` when the run errored before the
variable was assigned). -/
structure RunOutcome where
  trace : List Event
  err : Option ErrKind
  producerSource : Option ProducerSource
  producer : Option Producer
  num_users : Option Nat
  num_items : Option Nat
  numTrainStepsBranch : Option Nat
  numEvalSteps : Option Nat
  numTrainStepsFit : Option Nat
deriving Repr, DecidableEq

/-- The black-box sibling modules the driver calls into. -/
structure Env where
  /-- `ncf_main.parse_flags(FLAGS)`. -/
  parse_flags : Flags → Params
  /-- `data_preprocessing.instantiate_pipeline(dataset, data_dir, …)`,
  returning `(ncf_dataset, producer)`; arguments in order: dataset, data_dir,
  match_mlperf, deterministic, params. -/
  instantiate_pipeline : String → String → Bool → Bool → Params → NcfDataset × Producer
  /-- `data_pipeline.DummyConstructor()`. -/
  dummyConstructor : Producer
  /-- `data_preprocessing.DATASET_TO_NUM_USERS_AND_ITEMS[dataset]`. -/
  datasetToNumUsersAndItems : String → Nat × Nat
  /-- `data_preprocessing.SYNTHETIC_BATCHES_PER_EPOCH`. -/
  syntheticBatchesPerEpoch : Nat

/-- The loss function defined inside `run_ncf`: casts `y_true` to int32 and
reshapes it to `[batch_size]` as labels, reshapes `y_pred` to `[batch_size, 2]`
as logits, and applies `tf.losses.sparse_softmax_cross_entropy`. -/
def softmax_crossentropy_with_logits (batch_size : Nat) : TExpr :=
  TExpr.sparseSoftmaxCrossEntropy
    (TExpr.reshape [batch_size] (TExpr.cast DType.int32 TExpr.yTrue))
    (TExpr.reshape [batch_size, 2] TExpr.yPred)

/-- Graph-level `_logitfy(inputs, base_model)`: the returned
`tf.keras.Model(inputs=inputs, outputs=reshape_layer)` whose forward pass is
the zero-concat-reshape pipeline applied to the base model. -/
def _logitfy (inputs : List InputLayer) (base_model : ModelExpr) : ModelExpr :=
  ModelExpr.logitfied inputs base_model

/-- Tensor semantics of the forward pass of the model built by `_logitfy`,
for a batch on which the base model outputs one logit per example (`logits`,
a `[batch, 1]` tensor given row-wise): `zero_tensor` is
`Lambda(lambda x: x * 0)(logits)`, the `Concatenate(axis=1)` of
`[zero_tensor, logits]` pairs them row by row, and the
`Reshape(target_shape=(2,))` leaves each row a length-2 vector, so the
output has shape `(batch, 2)`. -/
def logitfyForward (logits : List ℚ) : List (List ℚ) :=
  let zero_tensor := logits.map (fun x => x * 0)
  let to_concatenate := zero_tensor.zip logits
  to_concatenate.map (fun p => [p.1, p.2])

/-- The initial segment of `run_ncf`'s trace: the conditional
`movielens.download(FLAGS.dataset, FLAGS.data_dir)` and the conditional
`np.random.seed(FLAGS.seed)`. -/
def preludeEvents (flags : Flags) : List Event :=
  (if flags.download_if_missing && !flags.use_synthetic_data then
    [Event.download flags.dataset flags.data_dir]
  else []) ++
  (match flags.seed with
   | some s => [Event.numpySeed s]
   | none => [])

/-- The `if FLAGS.use_synthetic_data: … else: …` branch of `run_ncf` that
chooses the producer and computes `num_users`, `num_items`, `num_train_steps`,
`num_eval_steps`.  On an `assert` failure or a zero divisor it returns the
error kind together with the events the branch emitted before failing. -/
def pipelineBranch (flags : Flags) (env : Env) (params : Params) :
    Except (ErrKind × List Event)
      (Producer × ProducerSource × Nat × Nat × Nat × Nat × List Event) :=
  if flags.use_synthetic_data then
    let producer := env.dummyConstructor
    let nui := env.datasetToNumUsersAndItems flags.dataset
    Except.ok (producer, ProducerSource.dummyConstructor, nui.1, nui.2,
      env.syntheticBatchesPerEpoch, env.syntheticBatchesPerEpoch, [])
  else
    let res := env.instantiate_pipeline flags.dataset flags.data_dir
      flags.ml_perf flags.seed.isSome params
    let producer := res.2
    let ev := [Event.instantiatePipelineCall flags.dataset flags.data_dir
      flags.ml_perf flags.seed.isSome]
    if params.batches_per_step = 0 then
      Except.error (ErrKind.zeroDivision, ev)
    else
      let num_train_steps := producer.train_batches_per_epoch / params.batches_per_step
      let num_eval_steps := producer.eval_batches_per_epoch / params.batches_per_step
      if producer.train_batches_per_epoch % params.batches_per_step ≠ 0 then
        Except.error (ErrKind.trainDivisibility, ev)
      else if producer.eval_batches_per_epoch % params.batches_per_step ≠ 0 then
        Except.error (ErrKind.evalDivisibility, ev)
      else
        Except.ok (producer, ProducerSource.instantiatePipeline,
          res.1.num_users, res.1.num_items, num_train_steps, num_eval_steps, ev)

/-- The layer `tf.keras.layers.Input(shape=(1,), batch_size=FLAGS.batch_size,
name="user_id", dtype=tf.int32)`. -/
def userInputLayer (flags : Flags) : InputLayer :=
  { shape := [1], batch_size := flags.batch_size, name := "user_id",
    dtype := DType.int32 }

/-- The layer `tf.keras.layers.Input(shape=(1,), batch_size=FLAGS.batch_size,
name="item_id", dtype=tf.int32)`. -/
def itemInputLayer (flags : Flags) : InputLayer :=
  { shape := [1], batch_size := flags.batch_size, name := "item_id",
    dtype := DType.int32 }

/-- `base_model = neumf_model.construct_model_keras(user_input, item_input, params)`. -/
def driverBaseModel (flags : Flags) (params2 : Params) : ModelExpr :=
  ModelExpr.constructModelKeras (userInputLayer flags) (itemInputLayer flags) params2

/-- `keras_model = _logitfy([user_input, item_input], base_model)`. -/
def driverKerasModel (flags : Flags) (params2 : Params) : ModelExpr :=
  _logitfy [userInputLayer flags, itemInputLayer flags] (driverBaseModel flags params2)

/-- The library calls between `producer.start()` and the `compile` call, in
source order. -/
def midEvents (producer : Producer) : List Event :=
  [Event.producerStart, Event.applyClean,
   Event.makeInputFnCall producer true false,
   Event.modelSummary,
   Event.logInfo "Using Keras instead of Estimator",
   Event.getDistributionStrategyCall 1]

/-- The call `keras_model.compile(loss=softmax_crossentropy_with_logits,
optimizer=opt, metrics=['accuracy'], distribute=None)`. -/
def compileEvent (flags : Flags) (params2 : Params) : Event :=
  Event.compileCall (driverKerasModel flags params2)
    (softmax_crossentropy_with_logits flags.batch_size)
    (OptExpr.getOptimizer params2) ["accuracy"] none

/-- `train_input_dataset = train_input_fn(params).repeat(FLAGS.train_epochs)`
where `train_input_fn = data_preprocessing.make_input_fn(producer=producer,
is_training=True, use_tpu=False)`. -/
def trainInputDataset (flags : Flags) (producer : Producer) (params2 : Params) :
    DatasetExpr :=
  DatasetExpr.repeated (DatasetExpr.inputFnApplied producer true false params2)
    flags.train_epochs

/-- The call `keras_model.fit(train_input_dataset, epochs=FLAGS.train_epochs,
steps_per_epoch=num_train_steps, callbacks=[], verbose=0)` with
`num_train_steps = producer.train_batches_per_epoch // params["batches_per_step"]`
recomputed just before the call. -/
def fitEvent (flags : Flags) (producer : Producer) (params2 : Params) : Event :=
  Event.fitCall (driverKerasModel flags params2) (trainInputDataset flags producer params2)
    flags.train_epochs (producer.train_batches_per_epoch / params2.batches_per_step) [] 0

/-- The params dict after `params["num_users"], params["num_items"] =
num_users, num_items`. -/
def driverParams (flags : Flags) (env : Env) (num_users num_items : Nat) : Params :=
  { env.parse_flags flags with num_users := num_users, num_items := num_items }

/-- Outcome of a run interrupted by a Python error before the producer was
chosen. -/
def errOutcome (k : ErrKind) (tr : List Event) : RunOutcome :=
  { trace := tr, err := some k, producerSource := none, producer := none,
    num_users := none, num_items := none, numTrainStepsBranch := none,
    numEvalSteps := none, numTrainStepsFit := none }

/-- The embedding of `run_ncf(FLAGS)`.  Statements are modelled in source
order; every library call appends its `Event`; Python `assert` failures and
`ZeroDivisionError`s abort the run with the partial trace. -/
def run_ncf (flags : Flags) (env : Env) : RunOutcome :=
  let pre := preludeEvents flags ++ [Event.parseFlagsCall]
  let params := env.parse_flags flags
  -- total_training_cycle = FLAGS.train_epochs // FLAGS.epochs_between_evals
  if flags.epochs_between_evals = 0 then errOutcome ErrKind.zeroDivision pre
  else
  match pipelineBranch flags env params with
  | Except.error (k, ev) => errOutcome k (pre ++ ev)
  | Except.ok (producer, src, num_users, num_items, num_train_steps, num_eval_steps,
      branchEvents) =>
    -- params["num_users"], params["num_items"] = num_users, num_items
    let params2 : Params := driverParams flags env num_users num_items
    -- num_train_steps = producer.train_batches_per_epoch // params["batches_per_step"]
    if params2.batches_per_step = 0 then
      { trace := pre ++ branchEvents ++ midEvents producer ++ [compileEvent flags params2],
        err := some ErrKind.zeroDivision,
        producerSource := some src, producer := some producer,
        num_users := some num_users, num_items := some num_items,
        numTrainStepsBranch := some num_train_steps,
        numEvalSteps := some num_eval_steps, numTrainStepsFit := none }
    else
      { trace := pre ++ branchEvents ++ midEvents producer ++
          [compileEvent flags params2,
           Event.printLine ">>>>>>>>>>> zhenzheng epochs: ",
           Event.printLine ">>>>>>>>>>> zhenzheng before fit",
           fitEvent flags producer params2,
           Event.printLine ">>>>>>>>>>> zhenzheng done fit"],
        err := none,
        producerSource := some src, producer := some producer,
        num_users := some num_users, num_items := some num_items,
        numTrainStepsBranch := some num_train_steps,
        numEvalSteps := some num_eval_steps,
        numTrainStepsFit := some (producer.train_batches_per_epoch / params2.batches_per_step) }

/-- The embedding of `main(_)`: enters the benchmark logger and MLPerf logger
contexts, sets the NCF root, then calls `run_ncf(FLAGS)`. -/
def KerasNcfMain.main (flags : Flags) (env : Env) : RunOutcome :=
  let r := run_ncf flags env
  { r with trace :=
      [Event.benchmarkContextEnter,
       Event.mlperfLoggerEnter flags.output_ml_perf_compliance_logging,
       Event.setNcfRoot] ++ r.trace }

/-- True exactly on `movielens.download` events. -/
def Event.isDownload : Event → Bool
  | Event.download _ _ => true
  | _ => false

/-- True exactly on `keras_model.evaluate`-style events (never emitted by the
driver). -/
def Event.isEvaluate : Event → Bool
  | Event.evaluateCall _ _ => true
  | _ => false

/-- True exactly on `keras_model.fit` events. -/
def Event.isFit : Event → Bool
  | Event.fitCall _ _ _ _ _ _ => true
  | _ => false

/-- True exactly on `keras_model.compile` events. -/
def Event.isCompile : Event → Bool
  | Event.compileCall _ _ _ _ _ => true
  | _ => false

/-- True exactly on `distribution_utils.get_distribution_strategy` events. -/
def Event.isGetDistributionStrategy : Event → Bool
  | Event.getDistributionStrategyCall _ => true
  | _ => false

/-- True exactly on events that create a thread, process, lock or queue
(never emitted by the driver). -/
def Event.isConcurrencyPrimitive : Event → Bool
  | Event.threadCreate => true
  | Event.processCreate => true
  | Event.lockCreate => true
  | Event.queueCreate => true
  | _ => false

/-- The `distribute=` argument of a `compile` event (`none` on any other
event). -/
def distributeArg : Event → Option StrategyExpr
  | Event.compileCall _ _ _ _ d => d
  | _ => none

/-- The `distribute=` arguments of the `compile` calls in a trace, in order. -/
def compileDistributes (o : RunOutcome) : List (Option StrategyExpr) :=
  (o.trace.filter Event.isCompile).map distributeArg

/-- A concrete params dict for witnesses. -/
def paramsEx : Params := { batches_per_step := 2, num_users := 0, num_items := 0 }

/-- A concrete environment for witnesses: every black-box call returns a fixed
small value, with batch counts divisible by `batches_per_step`. -/
def envEx : Env :=
  { parse_flags := fun _ => paramsEx
    instantiate_pipeline := fun _ _ _ _ _ =>
      ({ num_users := 5, num_items := 7 },
       { train_batches_per_epoch := 6, eval_batches_per_epoch := 4 })
    dummyConstructor := { train_batches_per_epoch := 10, eval_batches_per_epoch := 10 }
    datasetToNumUsersAndItems := fun _ => (3, 4)
    syntheticBatchesPerEpoch := 5 }

/-- Concrete flags for witnesses: the real-data path. -/
def flagsEx : Flags :=
  { download_if_missing := true, use_synthetic_data := false, dataset := "ml-1m",
    data_dir := "/tmp/movielens", seed := some 1, ml_perf := false,
    train_epochs := 2, epochs_between_evals := 1, batch_size := 8,
    output_ml_perf_compliance_logging := false }

/-- Concrete flags for witnesses: the synthetic-data path. -/
def flagsSyn : Flags :=
  { flagsEx with use_synthetic_data := true, download_if_missing := false }

lemma driverParams_batches_per_step (flags : Flags) (env : Env) (nu ni : Nat) :
    (driverParams flags env nu ni).batches_per_step =
      (env.parse_flags flags).batches_per_step := rfl

lemma preludeEvents_filter_eq_nil (flags : Flags) (p : Event → Bool)
    (hd : ∀ d dd, p (Event.download d dd) = false)
    (hs : ∀ s, p (Event.numpySeed s) = false) :
    (preludeEvents flags).filter p = [] := by
  unfold preludeEvents
  rw [List.filter_append]
  rcases hseed : flags.seed with _ | s <;> split <;> simp [hseed, hd, hs]

lemma preludeEvents_all (flags : Flags) (p : Event → Bool)
    (hd : ∀ d dd, p (Event.download d dd) = true)
    (hs : ∀ s, p (Event.numpySeed s) = true) :
    (preludeEvents flags).all p = true := by
  unfold preludeEvents
  rw [List.all_append]
  rcases hseed : flags.seed with _ | s <;> split <;> simp [hseed, hd, hs]

lemma preludeEvents_any_isDownload (flags : Flags) :
    (preludeEvents flags).any Event.isDownload =
      (flags.download_if_missing && !flags.use_synthetic_data) := by
  unfold preludeEvents
  rw [List.any_append]
  rcases hseed : flags.seed with _ | s <;> split <;>
    simp_all [Event.isDownload, Event.isDownload.eq_def]

lemma pipelineBranch_ok_events {flags : Flags} {env : Env} {params : Params}
    {producer : Producer} {src : ProducerSource} {nu ni nts nes : Nat}
    {ev : List Event}
    (h : pipelineBranch flags env params =
      Except.ok (producer, src, nu, ni, nts, nes, ev)) :
    ev = [] ∨ ev = [Event.instantiatePipelineCall flags.dataset flags.data_dir
      flags.ml_perf flags.seed.isSome] := by
  simp only [pipelineBranch] at h
  split at h
  · cases h
    exact Or.inl rfl
  · split at h
    · cases h
    · split at h
      · cases h
      · split at h
        · cases h
        · cases h
          exact Or.inr rfl

lemma pipelineBranch_error_events {flags : Flags} {env : Env} {params : Params}
    {k : ErrKind} {ev : List Event}
    (h : pipelineBranch flags env params = Except.error (k, ev)) :
    flags.use_synthetic_data = false ∧
    ev = [Event.instantiatePipelineCall flags.dataset flags.data_dir
      flags.ml_perf flags.seed.isSome] := by
  simp only [pipelineBranch] at h
  split at h
  · cases h
  · next hsyn =>
    refine ⟨by simpa using hsyn, ?_⟩
    split at h
    · cases h
      rfl
    · split at h
      · cases h
        rfl
      · split at h
        · cases h
          rfl
        · cases h

lemma run_ncf_success {flags : Flags} {env : Env}
    (h : (run_ncf flags env).err = none) :
    ∃ producer src nu ni nts nes branchEvents,
      flags.epochs_between_evals ≠ 0 ∧
      pipelineBranch flags env (env.parse_flags flags) =
        Except.ok (producer, src, nu, ni, nts, nes, branchEvents) ∧
      (env.parse_flags flags).batches_per_step ≠ 0 ∧
      run_ncf flags env =
        { trace := (preludeEvents flags ++ [Event.parseFlagsCall]) ++ branchEvents ++
            midEvents producer ++
            [compileEvent flags (driverParams flags env nu ni),
             Event.printLine ">>>>>>>>>>> zhenzheng epochs: ",
             Event.printLine ">>>>>>>>>>> zhenzheng before fit",
             fitEvent flags producer (driverParams flags env nu ni),
             Event.printLine ">>>>>>>>>>> zhenzheng done fit"],
          err := none,
          producerSource := some src, producer := some producer,
          num_users := some nu, num_items := some ni,
          numTrainStepsBranch := some nts, numEvalSteps := some nes,
          numTrainStepsFit := some (producer.train_batches_per_epoch /
            (env.parse_flags flags).batches_per_step) } := by
  by_cases hep : flags.epochs_between_evals = 0
  · exfalso
    simp [run_ncf, hep, errOutcome] at h
  · rcases hb : pipelineBranch flags env (env.parse_flags flags) with
      ⟨k, ev⟩ | ⟨producer, src, nu, ni, nts, nes, bev⟩
    · exfalso
      simp [run_ncf, hep, hb, errOutcome] at h
    · by_cases hbps : (env.parse_flags flags).batches_per_step = 0
      · exfalso
        simp [run_ncf, hep, hb, driverParams_batches_per_step, hbps] at h
      · refine ⟨producer, src, nu, ni, nts, nes, bev, hep, rfl, hbps, ?_⟩
        simp [run_ncf, hep, hb, driverParams_batches_per_step, hbps]

lemma run_ncf_trace_all_benign (flags : Flags) (env : Env) :
    ((run_ncf flags env).trace.all fun e =>
      ! e.isEvaluate && ! e.isConcurrencyPrimitive) = true := by
  have hpre : ((preludeEvents flags ++ [Event.parseFlagsCall]).all fun e =>
      ! e.isEvaluate && ! e.isConcurrencyPrimitive) = true := by
    rw [List.all_append]
    rw [preludeEvents_all _ _ (fun d dd => rfl) (fun s => rfl)]
    rfl
  by_cases hep : flags.epochs_between_evals = 0
  · simp only [run_ncf, hep, if_true, errOutcome]
    exact hpre
  · rcases hb : pipelineBranch flags env (env.parse_flags flags) with
      ⟨k, ev⟩ | ⟨producer, src, nu, ni, nts, nes, bev⟩
    · obtain ⟨-, hev⟩ := pipelineBranch_error_events hb
      subst hev
      simp only [run_ncf, hep, if_neg, ite_false, hb, errOutcome]
      rw [List.all_append, hpre]
      rfl
    · have hbev : (bev.all fun e =>
          ! e.isEvaluate && ! e.isConcurrencyPrimitive) = true := by
        rcases pipelineBranch_ok_events hb with h1 | h1 <;> subst h1 <;> rfl
      by_cases hbps : (env.parse_flags flags).batches_per_step = 0
      · simp only [run_ncf, hep, ite_false, hb, driverParams_batches_per_step, hbps,
          if_true]
        rw [List.all_append, List.all_append, List.all_append, hpre, hbev]
        rfl
      · simp only [run_ncf, hep, ite_false, hb, driverParams_batches_per_step, hbps,
          ite_true]
        rw [List.all_append, List.all_append, List.all_append, hpre, hbev]
        rfl

lemma mem_preludeEvents {flags : Flags} {e : Event} (h : e ∈ preludeEvents flags) :
    (∃ d dd, e = Event.download d dd) ∨ ∃ s, e = Event.numpySeed s := by
  unfold preludeEvents at h
  rw [List.mem_append] at h
  rcases h with h | h
  · split at h <;> simp at h
    exact Or.inl ⟨_, _, h⟩
  · rcases hs : flags.seed with _ | s <;> simp [hs] at h
    exact Or.inr ⟨_, h⟩

lemma pre_filter_eq_nil (flags : Flags) (p : Event → Bool)
    (hd : ∀ d dd, p (Event.download d dd) = false)
    (hs2 : ∀ s, p (Event.numpySeed s) = false)
    (hp : p Event.parseFlagsCall = false) :
    (preludeEvents flags ++ [Event.parseFlagsCall]).filter p = [] := by
  rw [List.filter_append, preludeEvents_filter_eq_nil flags p hd hs2]
  simp [hp]

lemma run_ncf_fit_events {flags : Flags} {env : Env}
    (hs : (run_ncf flags env).err = none) :
    ∃ producer nu ni,
      (run_ncf flags env).producer = some producer ∧
      (run_ncf flags env).num_users = some nu ∧
      (run_ncf flags env).num_items = some ni ∧
      Event.makeInputFnCall producer true false ∈ (run_ncf flags env).trace ∧
      Event.getDistributionStrategyCall 1 ∈ (run_ncf flags env).trace ∧
      (run_ncf flags env).trace.filter Event.isFit =
        [fitEvent flags producer (driverParams flags env nu ni)] ∧
      (run_ncf flags env).trace.filter Event.isCompile =
        [compileEvent flags (driverParams flags env nu ni)] := by
  obtain ⟨producer, src, nu, ni, nts, nes, bev, hep, hb, hbps, hrun⟩ := run_ncf_success hs
  have hbev : ∀ p : Event → Bool,
      (∀ a b c dd, p (Event.instantiatePipelineCall a b c dd) = false) →
      bev.filter p = [] := by
    intro p hp
    rcases pipelineBranch_ok_events hb with h1 | h1 <;> subst h1 <;> simp [hp]
  refine ⟨producer, nu, ni, by rw [hrun], by rw [hrun], by rw [hrun], ?_, ?_, ?_, ?_⟩
  · rw [hrun]
    simp [midEvents, List.mem_append]
  · rw [hrun]
    simp [midEvents, List.mem_append]
  · rw [hrun]
    dsimp only
    rw [List.filter_append, List.filter_append, List.filter_append,
      pre_filter_eq_nil flags Event.isFit (fun _ _ => rfl) (fun _ => rfl) rfl,
      hbev Event.isFit (fun _ _ _ _ => rfl)]
    rfl
  · rw [hrun]
    dsimp only
    rw [List.filter_append, List.filter_append, List.filter_append,
      pre_filter_eq_nil flags Event.isCompile (fun _ _ => rfl) (fun _ => rfl) rfl,
      hbev Event.isCompile (fun _ _ _ _ => rfl)]
    rfl

/-- The producer returned (as second component) by
`data_preprocessing.instantiate_pipeline` at the arguments `run_ncf` passes. -/
def pipelineProducer (flags : Flags) (env : Env) : Producer :=
  (env.instantiate_pipeline flags.dataset flags.data_dir flags.ml_perf
    flags.seed.isSome (env.parse_flags flags)).2

lemma logitfyForward_cons (a : ℚ) (t : List ℚ) :
    logitfyForward (a :: t) = [a * 0, a] :: logitfyForward t := rfl

lemma logitfyForward_getElem (logits : List ℚ) (i : Nat) :
    (logitfyForward logits)[i]? = (logits[i]?).map fun v => [v * 0, v] := by
  induction logits generalizing i with
  | nil => simp [logitfyForward]
  | cons a t ih =>
    cases i with
    | zero => simp [logitfyForward_cons]
    | succ n => simp [logitfyForward_cons, ih n]

/-- C8: the model built by `_logitfy` over a base model emitting one logit per
example outputs, for each example, a length-2 row whose first entry is the
base logit multiplied by 0 (hence exactly zero) and whose second entry is the
base logit, with the batch dimension preserved (flattened shape (batch, 2)). -/
theorem logitfy_rows_zero_and_logit (logits : List ℚ) (i : Nat)
    (h : i < logits.length) :
    (logitfyForward logits).length = logits.length ∧
    ∃ v, logits[i]? = some v ∧ (logitfyForward logits)[i]? = some [0, v] := by
  refine ⟨by simp [logitfyForward], ?_⟩
  refine ⟨logits[i], List.getElem?_eq_getElem h, ?_⟩
  rw [logitfyForward_getElem, List.getElem?_eq_getElem h]
  simp

theorem logitfy_rows_zero_and_logit_witness :
    (logitfyForward [(5 : ℚ), -3]).length = ([(5 : ℚ), -3] : List ℚ).length ∧
    ∃ v, ([(5 : ℚ), -3] : List ℚ)[1]? = some v ∧
      (logitfyForward [(5 : ℚ), -3])[1]? = some [0, v] :=
  logitfy_rows_zero_and_logit [(5 : ℚ), -3] 1 (by norm_num)

/-- Modelled from the spec claim text: the loss as the claim describes it —
`tf.losses.sparse_softmax_cross_entropy` applied to `y_true` cast to int32 and
reshaped to `[FLAGS.batch_size]` as labels, and `y_pred` reshaped to
`[FLAGS.batch_size, 2]` as logits. -/
def specSparseSoftmaxLoss (batch_size : Nat) : TExpr :=
  TExpr.sparseSoftmaxCrossEntropy
    (TExpr.reshape [batch_size] (TExpr.cast DType.int32 TExpr.yTrue))
    (TExpr.reshape [batch_size, 2] TExpr.yPred)

/-- C6: the compiled loss `softmax_crossentropy_with_logits` coincides with
the framework loss described by the claim, and the (unique) compile call of a
completed run uses exactly this loss at FLAGS.batch_size. -/
theorem compiled_loss_is_sparse_softmax (flags : Flags) (env : Env)
    (hs : (run_ncf flags env).err = none) :
    softmax_crossentropy_with_logits flags.batch_size =
      specSparseSoftmaxLoss flags.batch_size ∧
    ∃ producer nu ni,
      (run_ncf flags env).producer = some producer ∧
      (run_ncf flags env).trace.filter Event.isCompile =
        [Event.compileCall (driverKerasModel flags (driverParams flags env nu ni))
          (specSparseSoftmaxLoss flags.batch_size)
          (OptExpr.getOptimizer (driverParams flags env nu ni)) ["accuracy"] none] := by
  obtain ⟨producer, nu, ni, hp, hu, hi, hm, hg, hfit, hcomp⟩ := run_ncf_fit_events hs
  refine ⟨rfl, producer, nu, ni, hp, ?_⟩
  rw [hcomp]
  rfl

theorem compiled_loss_is_sparse_softmax_witness :
    softmax_crossentropy_with_logits flagsEx.batch_size =
      specSparseSoftmaxLoss flagsEx.batch_size ∧
    ∃ producer nu ni,
      (run_ncf flagsEx envEx).producer = some producer ∧
      (run_ncf flagsEx envEx).trace.filter Event.isCompile =
        [Event.compileCall (driverKerasModel flagsEx (driverParams flagsEx envEx nu ni))
          (specSparseSoftmaxLoss flagsEx.batch_size)
          (OptExpr.getOptimizer (driverParams flagsEx envEx nu ni)) ["accuracy"] none] :=
  compiled_loss_is_sparse_softmax flagsEx envEx (by decide)

/-- C3: in every completed run, `keras_model.fit` is called exactly once, with
epochs = FLAGS.train_epochs, steps_per_epoch = producer.train_batches_per_epoch
// params["batches_per_step"], an empty callback list, and verbose = 0. -/
theorem fit_called_once (flags : Flags) (env : Env)
    (hs : (run_ncf flags env).err = none) :
    ∃ m dsd producer,
      (run_ncf flags env).producer = some producer ∧
      (run_ncf flags env).trace.filter Event.isFit =
        [Event.fitCall m dsd flags.train_epochs
          (producer.train_batches_per_epoch / (env.parse_flags flags).batches_per_step)
          [] 0] := by
  obtain ⟨producer, nu, ni, hp, hu, hi, hm, hg, hfit, hcomp⟩ := run_ncf_fit_events hs
  refine ⟨driverKerasModel flags (driverParams flags env nu ni),
    trainInputDataset flags producer (driverParams flags env nu ni), producer, hp, ?_⟩
  rw [hfit]
  rfl

theorem fit_called_once_witness :
    ∃ m dsd producer,
      (run_ncf flagsEx envEx).producer = some producer ∧
      (run_ncf flagsEx envEx).trace.filter Event.isFit =
        [Event.fitCall m dsd flagsEx.train_epochs
          (producer.train_batches_per_epoch /
            (envEx.parse_flags flagsEx).batches_per_step) [] 0] :=
  fit_called_once flagsEx envEx (by decide)

/-- C4: the dataset passed to the unique fit call of a completed run is exactly
`data_preprocessing.make_input_fn(producer=producer, is_training=True,
use_tpu=False)` applied to params and then repeated FLAGS.train_epochs times,
and the `make_input_fn` call itself appears in the trace. -/
theorem fit_data_from_input_fn (flags : Flags) (env : Env)
    (hs : (run_ncf flags env).err = none) :
    ∃ m s producer nu ni,
      (run_ncf flags env).producer = some producer ∧
      (run_ncf flags env).num_users = some nu ∧
      (run_ncf flags env).num_items = some ni ∧
      Event.makeInputFnCall producer true false ∈ (run_ncf flags env).trace ∧
      (run_ncf flags env).trace.filter Event.isFit =
        [Event.fitCall m
          (DatasetExpr.repeated
            (DatasetExpr.inputFnApplied producer true false
              (driverParams flags env nu ni))
            flags.train_epochs)
          flags.train_epochs s [] 0] := by
  obtain ⟨producer, nu, ni, hp, hu, hi, hm, hg, hfit, hcomp⟩ := run_ncf_fit_events hs
  refine ⟨driverKerasModel flags (driverParams flags env nu ni),
    producer.train_batches_per_epoch / (env.parse_flags flags).batches_per_step,
    producer, nu, ni, hp, hu, hi, hm, ?_⟩
  rw [hfit]
  rfl

theorem fit_data_from_input_fn_witness :
    ∃ m s producer nu ni,
      (run_ncf flagsEx envEx).producer = some producer ∧
      (run_ncf flagsEx envEx).num_users = some nu ∧
      (run_ncf flagsEx envEx).num_items = some ni ∧
      Event.makeInputFnCall producer true false ∈ (run_ncf flagsEx envEx).trace ∧
      (run_ncf flagsEx envEx).trace.filter Event.isFit =
        [Event.fitCall m
          (DatasetExpr.repeated
            (DatasetExpr.inputFnApplied producer true false
              (driverParams flagsEx envEx nu ni))
            flagsEx.train_epochs)
          flagsEx.train_epochs s [] 0] :=
  fit_data_from_input_fn flagsEx envEx (by decide)

/-- C5: the trained model of a completed run is
`neumf_model.construct_model_keras(user_input, item_input, params)` wrapped
only by `_logitfy`, where the inputs are int32 Input layers of shape (1,) with
batch size FLAGS.batch_size, and the compile call's optimizer is
`neumf_model.get_optimizer(params)`. -/
theorem model_from_neumf_logitfied (flags : Flags) (env : Env)
    (hs : (run_ncf flags env).err = none) :
    ∃ dsd s producer nu ni,
      (run_ncf flags env).producer = some producer ∧
      (run_ncf flags env).num_users = some nu ∧
      (run_ncf flags env).num_items = some ni ∧
      (run_ncf flags env).trace.filter Event.isFit =
        [Event.fitCall
          (_logitfy
            [{ shape := [1], batch_size := flags.batch_size, name := "user_id",
               dtype := DType.int32 },
             { shape := [1], batch_size := flags.batch_size, name := "item_id",
               dtype := DType.int32 }]
            (ModelExpr.constructModelKeras
              { shape := [1], batch_size := flags.batch_size, name := "user_id",
                dtype := DType.int32 }
              { shape := [1], batch_size := flags.batch_size, name := "item_id",
                dtype := DType.int32 }
              (driverParams flags env nu ni)))
          dsd flags.train_epochs s [] 0] ∧
      (run_ncf flags env).trace.filter Event.isCompile =
        [Event.compileCall
          (_logitfy
            [{ shape := [1], batch_size := flags.batch_size, name := "user_id",
               dtype := DType.int32 },
             { shape := [1], batch_size := flags.batch_size, name := "item_id",
               dtype := DType.int32 }]
            (ModelExpr.constructModelKeras
              { shape := [1], batch_size := flags.batch_size, name := "user_id",
                dtype := DType.int32 }
              { shape := [1], batch_size := flags.batch_size, name := "item_id",
                dtype := DType.int32 }
              (driverParams flags env nu ni)))
          (softmax_crossentropy_with_logits flags.batch_size)
          (OptExpr.getOptimizer (driverParams flags env nu ni)) ["accuracy"] none] := by
  obtain ⟨producer, nu, ni, hp, hu, hi, hm, hg, hfit, hcomp⟩ := run_ncf_fit_events hs
  refine ⟨trainInputDataset flags producer (driverParams flags env nu ni),
    producer.train_batches_per_epoch / (env.parse_flags flags).batches_per_step,
    producer, nu, ni, hp, hu, hi, ?_, ?_⟩
  · rw [hfit]
    rfl
  · rw [hcomp]
    rfl

theorem model_from_neumf_logitfied_witness :
    ∃ dsd s producer nu ni,
      (run_ncf flagsEx envEx).producer = some producer ∧
      (run_ncf flagsEx envEx).num_users = some nu ∧
      (run_ncf flagsEx envEx).num_items = some ni ∧
      (run_ncf flagsEx envEx).trace.filter Event.isFit =
        [Event.fitCall
          (_logitfy
            [{ shape := [1], batch_size := flagsEx.batch_size, name := "user_id",
               dtype := DType.int32 },
             { shape := [1], batch_size := flagsEx.batch_size, name := "item_id",
               dtype := DType.int32 }]
            (ModelExpr.constructModelKeras
              { shape := [1], batch_size := flagsEx.batch_size, name := "user_id",
                dtype := DType.int32 }
              { shape := [1], batch_size := flagsEx.batch_size, name := "item_id",
                dtype := DType.int32 }
              (driverParams flagsEx envEx nu ni)))
          dsd flagsEx.train_epochs s [] 0] ∧
      (run_ncf flagsEx envEx).trace.filter Event.isCompile =
        [Event.compileCall
          (_logitfy
            [{ shape := [1], batch_size := flagsEx.batch_size, name := "user_id",
               dtype := DType.int32 },
             { shape := [1], batch_size := flagsEx.batch_size, name := "item_id",
               dtype := DType.int32 }]
            (ModelExpr.constructModelKeras
              { shape := [1], batch_size := flagsEx.batch_size, name := "user_id",
                dtype := DType.int32 }
              { shape := [1], batch_size := flagsEx.batch_size, name := "item_id",
                dtype := DType.int32 }
              (driverParams flagsEx envEx nu ni)))
          (softmax_crossentropy_with_logits flagsEx.batch_size)
          (OptExpr.getOptimizer (driverParams flagsEx envEx nu ni)) ["accuracy"] none] :=
  model_from_neumf_logitfied flagsEx envEx (by decide)

/-- C2 (amended): every completed run calls
`distribution_utils.get_distribution_strategy(num_gpus=1)` and binds the
result, but the model is compiled with `distribute=None`; the computed
strategy is not the distribution setting of the compile call. -/
theorem strategy_computed_but_unused (flags : Flags) (env : Env)
    (hs : (run_ncf flags env).err = none) :
    Event.getDistributionStrategyCall 1 ∈ (run_ncf flags env).trace ∧
    compileDistributes (run_ncf flags env) = [none] := by
  obtain ⟨producer, nu, ni, hp, hu, hi, hm, hg, hfit, hcomp⟩ := run_ncf_fit_events hs
  refine ⟨hg, ?_⟩
  unfold compileDistributes
  rw [hcomp]
  rfl

theorem strategy_computed_but_unused_witness :
    Event.getDistributionStrategyCall 1 ∈ (run_ncf flagsEx envEx).trace ∧
    compileDistributes (run_ncf flagsEx envEx) = [none] :=
  strategy_computed_but_unused flagsEx envEx (by decide)

/-- C2 counterexample: in the concrete completed run on `(flagsEx, envEx)` the
single compile call carries `distribute = None`, so the strategy returned by
`get_distribution_strategy(num_gpus=1)` is not the distribution setting under
which the model is compiled. -/
theorem compile_not_under_selected_strategy :
    (run_ncf flagsEx envEx).err = none ∧
    compileDistributes (run_ncf flagsEx envEx) = [none] ∧
    some (StrategyExpr.getDistributionStrategy 1) ∉
      compileDistributes (run_ncf flagsEx envEx) := by
  refine ⟨by decide, by decide, by decide⟩

/-- C9: in the non-synthetic path with a positive `batches_per_step` dividing
both batch counts, the two `assert` statements pass (the run reports no
error), `num_train_steps * batches_per_step` recovers
`train_batches_per_epoch` exactly, and the recomputation of `num_train_steps`
before `fit` equals the branch's first computation. -/
theorem divisibility_asserts_pass (flags : Flags) (env : Env)
    (hsyn : flags.use_synthetic_data = false)
    (hep : flags.epochs_between_evals ≠ 0)
    (hbps : (env.parse_flags flags).batches_per_step ≠ 0)
    (htr : (pipelineProducer flags env).train_batches_per_epoch %
      (env.parse_flags flags).batches_per_step = 0)
    (hev : (pipelineProducer flags env).eval_batches_per_epoch %
      (env.parse_flags flags).batches_per_step = 0) :
    (run_ncf flags env).err = none ∧
    (run_ncf flags env).numTrainStepsBranch =
      some ((pipelineProducer flags env).train_batches_per_epoch /
        (env.parse_flags flags).batches_per_step) ∧
    ((pipelineProducer flags env).train_batches_per_epoch /
        (env.parse_flags flags).batches_per_step) *
      (env.parse_flags flags).batches_per_step =
      (pipelineProducer flags env).train_batches_per_epoch ∧
    (run_ncf flags env).numTrainStepsFit = (run_ncf flags env).numTrainStepsBranch := by
  have hb : pipelineBranch flags env (env.parse_flags flags) =
      Except.ok (pipelineProducer flags env, ProducerSource.instantiatePipeline,
        (env.instantiate_pipeline flags.dataset flags.data_dir flags.ml_perf
          flags.seed.isSome (env.parse_flags flags)).1.num_users,
        (env.instantiate_pipeline flags.dataset flags.data_dir flags.ml_perf
          flags.seed.isSome (env.parse_flags flags)).1.num_items,
        (pipelineProducer flags env).train_batches_per_epoch /
          (env.parse_flags flags).batches_per_step,
        (pipelineProducer flags env).eval_batches_per_epoch /
          (env.parse_flags flags).batches_per_step,
        [Event.instantiatePipelineCall flags.dataset flags.data_dir flags.ml_perf
          flags.seed.isSome]) := by
    have htr2 := htr
    have hev2 := hev
    simp only [pipelineProducer] at htr2 hev2
    simp only [pipelineBranch, hsyn, Bool.false_eq_true, if_false, hbps, ite_false,
      pipelineProducer, ne_eq, not_true_eq_false, not_false_eq_true, if_true]
    simp [htr2, hev2, hbps]
  refine ⟨?_, ?_, Nat.div_mul_cancel (Nat.dvd_of_mod_eq_zero htr), ?_⟩ <;>
    simp [run_ncf, hep, hb, driverParams_batches_per_step, hbps]

theorem divisibility_asserts_pass_witness :
    (run_ncf flagsEx envEx).err = none ∧
    (run_ncf flagsEx envEx).numTrainStepsBranch =
      some ((pipelineProducer flagsEx envEx).train_batches_per_epoch /
        (envEx.parse_flags flagsEx).batches_per_step) ∧
    ((pipelineProducer flagsEx envEx).train_batches_per_epoch /
        (envEx.parse_flags flagsEx).batches_per_step) *
      (envEx.parse_flags flagsEx).batches_per_step =
      (pipelineProducer flagsEx envEx).train_batches_per_epoch ∧
    (run_ncf flagsEx envEx).numTrainStepsFit =
      (run_ncf flagsEx envEx).numTrainStepsBranch :=
  divisibility_asserts_pass flagsEx envEx (by decide) (by decide) (by decide)
    (by decide) (by decide)

lemma run_ncf_any_download (flags : Flags) (env : Env) :
    (run_ncf flags env).trace.any Event.isDownload =
      (flags.download_if_missing && !flags.use_synthetic_data) := by
  by_cases hep : flags.epochs_between_evals = 0
  · simp only [run_ncf, hep, if_true, errOutcome]
    simp [List.any_append, preludeEvents_any_isDownload, Event.isDownload.eq_def]
  · rcases hb : pipelineBranch flags env (env.parse_flags flags) with
      ⟨k, ev⟩ | ⟨producer, src, nu, ni, nts, nes, bev⟩
    · obtain ⟨-, hev⟩ := pipelineBranch_error_events hb
      subst hev
      simp only [run_ncf, hep, ite_false, hb, errOutcome]
      simp [List.any_append, preludeEvents_any_isDownload, Event.isDownload.eq_def]
    · have hbev : bev.any Event.isDownload = false := by
        rcases pipelineBranch_ok_events hb with h1 | h1 <;> subst h1 <;> rfl
      by_cases hbps : (env.parse_flags flags).batches_per_step = 0
      · simp only [run_ncf, hep, ite_false, hb, driverParams_batches_per_step, hbps,
          if_true]
        simp [List.any_append, preludeEvents_any_isDownload, hbev,
          Event.isDownload.eq_def, midEvents, compileEvent, fitEvent]
      · simp only [run_ncf, hep, ite_false, hb, driverParams_batches_per_step, hbps,
          ite_true]
        simp [List.any_append, preludeEvents_any_isDownload, hbev,
          Event.isDownload.eq_def, midEvents, compileEvent, fitEvent]

/-- C10: `movielens.download` is invoked iff `download_if_missing` is true and
`use_synthetic_data` is false; and in the synthetic path (whenever the run
reaches the branch, i.e. `epochs_between_evals` is nonzero) the producer is
`data_pipeline.DummyConstructor()`, the user/item counts come from
`DATASET_TO_NUM_USERS_AND_ITEMS[dataset]`, both step counts equal
`SYNTHETIC_BATCHES_PER_EPOCH`, and neither divisibility assertion executes. -/
theorem download_iff_and_synthetic_path (flags : Flags) (env : Env) :
    ((run_ncf flags env).trace.any Event.isDownload =
      (flags.download_if_missing && !flags.use_synthetic_data)) ∧
    (flags.use_synthetic_data = true → flags.epochs_between_evals ≠ 0 →
      (run_ncf flags env).producerSource = some ProducerSource.dummyConstructor ∧
      (run_ncf flags env).producer = some env.dummyConstructor ∧
      (run_ncf flags env).num_users =
        some (env.datasetToNumUsersAndItems flags.dataset).1 ∧
      (run_ncf flags env).num_items =
        some (env.datasetToNumUsersAndItems flags.dataset).2 ∧
      (run_ncf flags env).numTrainStepsBranch = some env.syntheticBatchesPerEpoch ∧
      (run_ncf flags env).numEvalSteps = some env.syntheticBatchesPerEpoch ∧
      (run_ncf flags env).err ≠ some ErrKind.trainDivisibility ∧
      (run_ncf flags env).err ≠ some ErrKind.evalDivisibility) := by
  refine ⟨run_ncf_any_download flags env, ?_⟩
  intro hsyn hep
  have hb : pipelineBranch flags env (env.parse_flags flags) =
      Except.ok (env.dummyConstructor, ProducerSource.dummyConstructor,
        (env.datasetToNumUsersAndItems flags.dataset).1,
        (env.datasetToNumUsersAndItems flags.dataset).2,
        env.syntheticBatchesPerEpoch, env.syntheticBatchesPerEpoch, []) := by
    simp [pipelineBranch, hsyn]
  by_cases hbps : (env.parse_flags flags).batches_per_step = 0 <;>
    refine ⟨?_, ?_, ?_, ?_, ?_, ?_, ?_, ?_⟩ <;>
      simp [run_ncf, hep, hb, driverParams_batches_per_step, hbps]

theorem download_iff_and_synthetic_path_witness :
    ((run_ncf flagsSyn envEx).trace.any Event.isDownload =
      (flagsSyn.download_if_missing && !flagsSyn.use_synthetic_data)) ∧
    ((run_ncf flagsSyn envEx).producerSource = some ProducerSource.dummyConstructor ∧
      (run_ncf flagsSyn envEx).producer = some envEx.dummyConstructor ∧
      (run_ncf flagsSyn envEx).num_users =
        some (envEx.datasetToNumUsersAndItems flagsSyn.dataset).1 ∧
      (run_ncf flagsSyn envEx).num_items =
        some (envEx.datasetToNumUsersAndItems flagsSyn.dataset).2 ∧
      (run_ncf flagsSyn envEx).numTrainStepsBranch =
        some envEx.syntheticBatchesPerEpoch ∧
      (run_ncf flagsSyn envEx).numEvalSteps = some envEx.syntheticBatchesPerEpoch ∧
      (run_ncf flagsSyn envEx).err ≠ some ErrKind.trainDivisibility ∧
      (run_ncf flagsSyn envEx).err ≠ some ErrKind.evalDivisibility) :=
  ⟨(download_iff_and_synthetic_path flagsSyn envEx).1,
   (download_iff_and_synthetic_path flagsSyn envEx).2 (by decide) (by decide)⟩

/-- C1 (code-bug evidence): no invocation of `main` ever evaluates the trained
model: for every flags/environment, the whole trace contains no evaluate
event, although `num_eval_steps` is computed and the docstrings promise a
training and eval loop. -/
theorem run_never_evaluates (flags : Flags) (env : Env) :
    ((KerasNcfMain.main flags env).trace.all fun e => ! e.isEvaluate) = true := by
  have h := run_ncf_trace_all_benign flags env
  rw [List.all_eq_true] at h ⊢
  intro e he
  have he2 : e = Event.benchmarkContextEnter ∨
      e = Event.mlperfLoggerEnter flags.output_ml_perf_compliance_logging ∨
      e = Event.setNcfRoot ∨ e ∈ (run_ncf flags env).trace := by
    simpa [KerasNcfMain.main, List.mem_append] using he
  rcases he2 with rfl | rfl | rfl | he2
  · rfl
  · rfl
  · rfl
  · have hb := h e he2
    simp only [Bool.and_eq_true] at hb
    exact hb.1

/-- C7: the driver creates no thread, process, lock or queue of its own: for
every flags/environment the trace of `main` is a single sequential list of
library calls containing no concurrency-primitive event (in particular the
imported multiprocessing module is never used). -/
theorem no_concurrency_primitives (flags : Flags) (env : Env) :
    ((KerasNcfMain.main flags env).trace.all fun e =>
      ! e.isConcurrencyPrimitive) = true := by
  have h := run_ncf_trace_all_benign flags env
  rw [List.all_eq_true] at h ⊢
  intro e he
  have he2 : e = Event.benchmarkContextEnter ∨
      e = Event.mlperfLoggerEnter flags.output_ml_perf_compliance_logging ∨
      e = Event.setNcfRoot ∨ e ∈ (run_ncf flags env).trace := by
    simpa [KerasNcfMain.main, List.mem_append] using he
  rcases he2 with rfl | rfl | rfl | he2
  · rfl
  · rfl
  · rfl
  · have hb := h e he2
    simp only [Bool.and_eq_true] at hb
    exact hb.2
